import Mathlib

/-!
Shallow embedding of the Cryptix API service (src/Cryptix/api/app.py and
src/Cryptix/api/logger.py): a Flask application with five routes
(`/`, `/health`, `/log`, `/fraud`, `/recommendations`), JSON error handlers
for 404 and 500, and a process-wide logger with a console sink and a
size-rotating file sink.  Handlers are embedded as pure functions from an
explicit request (and an explicit current time, standing for
`datetime.utcnow()`) to a response plus the list of log events emitted.
-/

/-- A JSON value, as produced by `request.get_json()` and consumed by
`jsonify`.  Python `None` is `null`; numbers are modelled as rationals
(the only numeric literals in the source are `0.85`, integer ids and
status codes).  Objects are association lists in insertion order. -/
inductive Json where
  | null : Json
  | bool : Bool → Json
  | num : Rat → Json
  | str : String → Json
  | arr : List Json → Json
  | obj : List (String × Json) → Json

/-- Key lookup in a JSON object association list (Python `dict` access:
first binding wins). -/
def lookupField : List (String × Json) → String → Option Json
  | [], _ => none
  | (k, v) :: rest, key => if k = key then some v else lookupField rest key

/-- `j.lookup key` reads a field of a JSON object; `none` on non-objects
and missing keys. -/
def Json.lookup : Json → String → Option Json
  | .obj fields, key => lookupField fields key
  | _, _ => none

/-- Python truthiness of a JSON value: `None`, `False`, `0`, `""`, `[]`
and `{}` are falsy, everything else truthy. -/
def Json.falsy : Json → Bool
  | .null => true
  | .bool b => !b
  | .num q => q = 0
  | .str s => s = ""
  | .arr xs => xs.isEmpty
  | .obj fields => fields.isEmpty

/-- Python `not x` applied to the result of `dict.get` (which yields
`None` when the key is absent). -/
def pyNot : Option Json → Bool
  | none => true
  | some j => j.falsy

/-- HTTP methods used by the service routes. -/
inductive Method where
  | GET : Method
  | POST : Method
  deriving DecidableEq

/-- An incoming HTTP request as the handlers observe it: method, path,
full URL, header mapping, query parameters (`request.args`), client
address, and the outcome of JSON-parsing the body.  `rawBody = some j`
means `request.get_json()` succeeds and yields `j`; `rawBody = none`
means the body is not valid JSON, so `request.get_json()` raises. -/
structure HttpRequest where
  method : Method
  path : String
  url : String
  headers : List (String × String)
  args : List (String × String)
  remoteAddr : String
  rawBody : Option Json

/-- `request.args.get key`: first query parameter with that key. -/
def argsGet (req : HttpRequest) (key : String) : Option String :=
  match req.args.find? (fun p => p.1 = key) with
  | some p => some p.2
  | none => none

/-- `request.args.get key (default := d) (type := int)`: Flask converts
with `int` and silently falls back to the default when the parameter is
absent or the conversion fails. -/
def argsGetInt (req : HttpRequest) (key : String) (d : Int) : Int :=
  match argsGet req key with
  | none => d
  | some s =>
    match s.toInt? with
    | some n => n
    | none => d

/-- A response body: `jsonify` output, or an HTML page produced by the
framework itself (default Werkzeug error pages, debugger pages). -/
inductive Body where
  | json : Json → Body
  | html : String → Body

/-- An HTTP response: status code and body. -/
structure HttpResponse where
  status : Nat
  body : Body

/-- Severity levels of the `logging` module used by the service. -/
inductive LogLevel where
  | debug : LogLevel
  | info : LogLevel
  | warning : LogLevel
  | error : LogLevel
  deriving DecidableEq

/-- Numeric severity values of the Python `logging` module. -/
def LogLevel.num : LogLevel → Nat
  | .debug => 10
  | .info => 20
  | .warning => 30
  | .error => 40

/-- `%(levelname)s` of the Python `logging` module. -/
def LogLevel.name : LogLevel → String
  | .debug => "DEBUG"
  | .info => "INFO"
  | .warning => "WARNING"
  | .error => "ERROR"

/-- A log call made by a handler: severity and message. -/
structure LogEvent where
  level : LogLevel
  msg : String
  deriving DecidableEq

/-- A fault escaping a handler: either an `HTTPException` raised by the
framework itself (e.g. `BadRequest` from `request.get_json()`), which
Flask turns into a response with that status, or an ordinary Python
exception with its description. -/
inductive Fault where
  | httpError : Nat → String → Fault
  | exn : String → Fault

mutual

/-- Rendering of a JSON value into the log line of `log_request`
(`f"Request logged: {request_details}"`). -/
def Json.render : Json → String
  | .null => "None"
  | .bool b => if b then "True" else "False"
  | .num q => toString q
  | .str s => "\x27" ++ s ++ "\x27"
  | .arr xs => "[" ++ renderList xs ++ "]"
  | .obj fields => "\x7b" ++ renderFields fields ++ "\x7d"

/-- Comma-separated rendering of a JSON array's elements. -/
def renderList : List Json → String
  | [] => ""
  | [j] => Json.render j
  | j :: rest => Json.render j ++ ", " ++ renderList rest

/-- Comma-separated rendering of a JSON object's fields. -/
def renderFields : List (String × Json) → String
  | [] => ""
  | [(k, v)] => "\x27" ++ k ++ "\x27: " ++ Json.render v
  | (k, v) :: rest => "\x27" ++ k ++ "\x27: " ++ Json.render v ++ ", " ++ renderFields rest

end

/-- A broken-down UTC time as `datetime.utcnow()` yields it: year, month,
day, hour, minute, second, microsecond. -/
structure DateTime where
  year : Nat
  month : Nat
  day : Nat
  hour : Nat
  minute : Nat
  second : Nat
  microsecond : Nat
  deriving DecidableEq

/-- Field ranges of a Python `datetime` value. -/
def DateTime.Valid (t : DateTime) : Prop :=
  1 ≤ t.year ∧ t.year ≤ 9999 ∧ 1 ≤ t.month ∧ t.month ≤ 12 ∧
  1 ≤ t.day ∧ t.day ≤ 31 ∧ t.hour ≤ 23 ∧ t.minute ≤ 59 ∧
  t.second ≤ 59 ∧ t.microsecond ≤ 999999

instance (t : DateTime) : Decidable t.Valid := by
  unfold DateTime.Valid
  infer_instance

/-- Chronological ordering of broken-down times, as a single key
(fields compare lexicographically; the radixes exceed each field's
range, so the key respects the field-wise order). -/
def DateTime.key (t : DateTime) : Nat :=
  t.microsecond +
    1000000 * (t.second + 60 * (t.minute + 60 * (t.hour + 24 *
      (t.day + 32 * (t.month + 13 * t.year)))))

/-- Two decimal digits, zero padded. -/
def digits2 (n : Nat) : List Char :=
  [Nat.digitChar (n / 10), Nat.digitChar (n % 10)]

/-- Four decimal digits, zero padded. -/
def digits4 (n : Nat) : List Char :=
  digits2 (n / 100) ++ digits2 (n % 100)

/-- Six decimal digits, zero padded. -/
def digits6 (n : Nat) : List Char :=
  digits2 (n / 10000) ++ digits4 (n % 10000)

/-- The characters of `datetime.isoformat()`:
`YYYY-MM-DDTHH:MM:SS` followed by `.ffffff` exactly when the
microsecond field is nonzero. -/
def isoChars (t : DateTime) : List Char :=
  digits4 t.year ++ '-' ::
    (digits2 t.month ++ '-' ::
      (digits2 t.day ++ 'T' ::
        (digits2 t.hour ++ ':' ::
          (digits2 t.minute ++ ':' ::
            (digits2 t.second ++
              (if t.microsecond = 0 then [] else '.' :: digits6 t.microsecond))))))

/-- `datetime.isoformat()` as a string. -/
def isoformat (t : DateTime) : String :=
  String.mk (isoChars t)

/-- A decimal digit character and its value. -/
def readDigit (c : Char) : Option Nat :=
  if '0' ≤ c ∧ c ≤ '9' then some (c.toNat - 48) else none

/-- Read two decimal digits. -/
def read2 : List Char → Option (Nat × List Char)
  | a :: b :: rest =>
    match readDigit a, readDigit b with
    | some x, some y => some (10 * x + y, rest)
    | _, _ => none
  | _ => none

/-- Read four decimal digits. -/
def read4 (cs : List Char) : Option (Nat × List Char) :=
  match read2 cs with
  | some (hi, r) =>
    match read2 r with
    | some (lo, r2) => some (100 * hi + lo, r2)
    | none => none
  | none => none

/-- Read six decimal digits. -/
def read6 (cs : List Char) : Option (Nat × List Char) :=
  match read2 cs with
  | some (hi, r) =>
    match read4 r with
    | some (lo, r2) => some (10000 * hi + lo, r2)
    | none => none
  | none => none

/-- Consume one expected character. -/
def expectChar (c : Char) : List Char → Option (List Char)
  | d :: rest => if d = c then some rest else none
  | [] => none

/-- Parser for the ISO-8601 profile emitted by `datetime.isoformat()`:
`YYYY-MM-DDTHH:MM:SS[.ffffff]`. -/
def isoParseChars (cs : List Char) : Option DateTime :=
  (read4 cs).bind fun py =>
  (expectChar '-' py.2).bind fun r1 =>
  (read2 r1).bind fun pmo =>
  (expectChar '-' pmo.2).bind fun r2 =>
  (read2 r2).bind fun pd =>
  (expectChar 'T' pd.2).bind fun r3 =>
  (read2 r3).bind fun ph =>
  (expectChar ':' ph.2).bind fun r4 =>
  (read2 r4).bind fun pmi =>
  (expectChar ':' pmi.2).bind fun r5 =>
  (read2 r5).bind fun ps =>
  match ps.2 with
  | [] => some ⟨py.1, pmo.1, pd.1, ph.1, pmi.1, ps.1, 0⟩
  | '.' :: r6 =>
    (read6 r6).bind fun pus =>
    match pus.2 with
    | [] => some ⟨py.1, pmo.1, pd.1, ph.1, pmi.1, ps.1, pus.1⟩
    | _ => none
  | _ => none

/-- ISO-8601 parsing of a string. -/
def isoParse (s : String) : Option DateTime :=
  isoParseChars s.data

/-- The `api_docs` object returned by the root endpoint (app.py, `index`). -/
def apiDocs : Json :=
  .obj [
    ("name", .str "Cryptix API Service"),
    ("version", .str "1.0.0"),
    ("description", .str "API service for logging and monitoring Cryptix platform activities"),
    ("endpoints", .obj [
      ("/", .obj [
        ("methods", .arr [.str "GET"]),
        ("description", .str "This documentation")]),
      ("/health", .obj [
        ("methods", .arr [.str "GET"]),
        ("description", .str "Health check endpoint"),
        ("response", .obj [
          ("status", .str "String - current health status"),
          ("timestamp", .str "ISO 8601 timestamp")])]),
      ("/log", .obj [
        ("methods", .arr [.str "GET", .str "POST"]),
        ("description", .str "Request logging endpoint"),
        ("response", .obj [
          ("message", .str "String - confirmation message"),
          ("request_details", .obj [
            ("method", .str "HTTP method used"),
            ("url", .str "Request URL"),
            ("headers", .str "Request headers"),
            ("timestamp", .str "ISO 8601 timestamp"),
            ("remote_addr", .str "Client IP address"),
            ("body", .str "Request body (POST requests only)")])])]),
      ("/fraud", .obj [
        ("methods", .arr [.str "POST"]),
        ("description", .str "Analyze a transaction for fraud detection"),
        ("request", .obj [
          ("transaction", .obj [
            ("value", .str "Transaction value"),
            ("timestamp", .str "Transaction timestamp"),
            ("from", .str "Sender address"),
            ("to", .str "Receiver address")])]),
        ("response", .obj [
          ("analysis", .str "Object containing fraud analysis results")])]),
      ("/recommendations", .obj [
        ("methods", .arr [.str "GET"]),
        ("description", .str "Get personalized event recommendations for a user"),
        ("request", .obj [
          ("userId", .str "User identifier"),
          ("limit", .str "Optional limit for number of recommendations")]),
        ("response", .obj [
          ("recommendations", .str "Array of recommended events")])])])]

/-- `index` (app.py): root endpoint returning the API documentation. -/
def index : HttpResponse × List LogEvent :=
  (⟨200, .json apiDocs⟩, [⟨.info, "API documentation accessed"⟩])

/-- `health_check` (app.py): returns the fixed status and the current
UTC time in ISO format. -/
def health_check (now : DateTime) : HttpResponse × List LogEvent :=
  (⟨200, .json (.obj [
      ("status", .str "healthy"),
      ("timestamp", .str (isoformat now))])⟩,
   [⟨.info, "Health check endpoint accessed"⟩])

/-- The `request_details` dictionary built by `log_request` (app.py):
method, url, headers, timestamp, remote_addr, and — for POST only —
the parsed body, or the placeholder string when `request.get_json()`
raises. -/
def requestDetails (now : DateTime) (req : HttpRequest) : Json :=
  .obj ([
    ("method", .str (match req.method with | .GET => "GET" | .POST => "POST")),
    ("url", .str req.url),
    ("headers", .obj (req.headers.map fun p => (p.1, .str p.2))),
    ("timestamp", .str (isoformat now)),
    ("remote_addr", .str req.remoteAddr)] ++
    (if req.method = .POST then
      [("body", match req.rawBody with
        | some j => j
        | none => .str "Could not parse JSON body")]
    else []))

/-- `log_request` (app.py): logs the request details and returns them.
The `try/except` around `request.get_json()` is embedded in
`requestDetails`: a body that fails to parse becomes the placeholder
string, and the handler never faults. -/
def log_request (now : DateTime) (req : HttpRequest) : HttpResponse × List LogEvent :=
  (⟨200, .json (.obj [
      ("message", .str "Request logged successfully"),
      ("request_details", requestDetails now req)])⟩,
   [⟨.info, "Request logged: " ++ (requestDetails now req).render⟩])

/-- `analyze_fraud` (app.py): `request.get_json()` raises `BadRequest`
on an unparseable body; `data.get('transaction')` raises
`AttributeError` when the parsed body is not a dict; a missing or falsy
`transaction` yields the 400 error; otherwise the placeholder analysis
is returned. -/
def analyze_fraud (req : HttpRequest) : Except Fault (HttpResponse × List LogEvent) :=
  match req.rawBody with
  | none => .error (.httpError 400 "Failed to decode JSON object")
  | some data =>
    match data with
    | .obj fields =>
      if pyNot (lookupField fields "transaction") then
        .ok (⟨400, .json (.obj [("error", .str "Transaction data is required")])⟩, [])
      else
        .ok (⟨200, .json (.obj [
            ("analysis", .obj [
              ("riskScore", .num (85 / 100)),
              ("isFraudulent", .bool true)])])⟩,
          [⟨.info, "Fraud analysis completed"⟩])
    | _ => .error (.exn "AttributeError: object has no attribute get")

/-- Python `not x` on an optional string (`request.args.get` yields
`None` when the parameter is absent; the empty string is falsy). -/
def pyNotStr : Option String → Bool
  | none => true
  | some s => s = ""

/-- `get_recommendations` (app.py): reads `userId` and `limit` from the
query string; a missing or empty `userId` (Python falsy) yields the 400
error; otherwise the placeholder recommendation list is returned. -/
def get_recommendations (req : HttpRequest) : HttpResponse × List LogEvent :=
  let user_id := argsGet req "userId"
  let _limit := argsGetInt req "limit" 10
  if pyNotStr user_id then
    (⟨400, .json (.obj [("error", .str "User ID is required")])⟩, [])
  else
    (⟨200, .json (.obj [
        ("recommendations", .arr [
          .obj [("eventId", .num 1), ("eventName", .str "Concert A")],
          .obj [("eventId", .num 2), ("eventName", .str "Festival B")]])])⟩,
     [⟨.info, "Recommendations retrieved"⟩])

/-- `not_found_error` (app.py): the registered 404 handler. -/
def not_found_error (req : HttpRequest) : HttpResponse × List LogEvent :=
  (⟨404, .json (.obj [
      ("error", .str "Resource not found"),
      ("status_code", .num 404)])⟩,
   [⟨.warning, "404 Error: " ++ req.url⟩])

/-- `internal_error` (app.py): the registered 500 handler. -/
def internal_error (desc : String) : HttpResponse × List LogEvent :=
  (⟨500, .json (.obj [
      ("error", .str "Internal server error"),
      ("status_code", .num 500)])⟩,
   [⟨.error, "500 Error: " ++ desc⟩])

/-- The route table registered on the Flask app: path and allowed
methods of each `@app.route` declaration. -/
def findRoute (path : String) : Option (List Method) :=
  if path = "/" then some [.GET]
  else if path = "/health" then some [.GET]
  else if path = "/log" then some [.GET, .POST]
  else if path = "/fraud" then some [.POST]
  else if path = "/recommendations" then some [.GET]
  else none

/-- Runs the handler bound to the request's (already matched) path.
Only `analyze_fraud` can fault; every other handler returns normally on
all inputs. -/
def runHandler (now : DateTime) (req : HttpRequest) :
    Except Fault (HttpResponse × List LogEvent) :=
  if req.path = "/" then .ok index
  else if req.path = "/health" then .ok (health_check now)
  else if req.path = "/log" then .ok (log_request now req)
  else if req.path = "/fraud" then analyze_fraud req
  else if req.path = "/recommendations" then .ok (get_recommendations req)
  else .error (.exn "no handler")

/-- The `debug=True` argument of `app.run` (app.py line 180). -/
def flaskDebug : Bool := true

/-- The Werkzeug interactive-debugger page served for an uncaught
exception when the app runs in debug mode: an HTML traceback that
includes the exception's description. -/
def debuggerPage (desc : String) : String :=
  "<html><body><h1>Traceback (most recent call last)</h1>" ++ desc ++ "</body></html>"

/-- The default Werkzeug error page for an `HTTPException` with no
registered handler (e.g. 400, 405): an HTML page for that status. -/
def defaultErrorPage (status : Nat) (desc : String) : String :=
  "<html><body><h1>" ++ toString status ++ "</h1><p>" ++ desc ++ "</p></body></html>"

/-- Full request dispatch of the Flask app: route matching (unknown
path → registered 404 handler; known path with a method outside the
route's list → default 405 page), then handler execution.  An
`HTTPException` escaping a handler becomes the default page for its
status (no handler is registered for 400/405); any other uncaught
exception reaches the registered 500 handler — except in debug mode,
where Werkzeug serves the interactive debugger's traceback page
instead. -/
def dispatch (debug : Bool) (now : DateTime) (req : HttpRequest) :
    HttpResponse × List LogEvent :=
  match findRoute req.path with
  | none => not_found_error req
  | some methods =>
    if req.method ∈ methods then
      match runHandler now req with
      | .ok result => result
      | .error (.httpError status desc) =>
        (⟨status, .html (defaultErrorPage status desc)⟩, [])
      | .error (.exn desc) =>
        if debug then
          (⟨500, .html (debuggerPage desc)⟩, [])
        else
          internal_error desc
    else
      (⟨405, .html (defaultErrorPage 405 "The method is not allowed for the requested URL.")⟩, [])

/-- `maxBytes=10485760` of the `RotatingFileHandler` (logger.py). -/
def cryptixMaxBytes : Nat := 10485760

/-- `backupCount=5` of the `RotatingFileHandler` (logger.py). -/
def cryptixBackupCount : Nat := 5

/-- `logger.setLevel(logging.INFO)` (logger.py). -/
def cryptixMinLevel : LogLevel := .info

/-- A record submitted to the logger: capture time, severity, message. -/
structure LogRecord where
  asctime : String
  level : LogLevel
  msg : String
  deriving DecidableEq

/-- The formatter `'%(asctime)s - %(levelname)s - %(message)s'`
(logger.py). -/
def lineOf (r : LogRecord) : String :=
  r.asctime ++ " - " ++ r.level.name ++ " - " ++ r.msg

/-- Bytes a record occupies in the file: the formatted line plus the
terminating newline. -/
def lineSize (r : LogRecord) : Nat :=
  (lineOf r).length + 1

/-- State of the rotating file sink: the lines of the active log file
and the rotated backup files, newest first. -/
structure SinkState where
  active : List String
  backups : List (List String)
  deriving DecidableEq

/-- Size in bytes of the active log file. -/
def SinkState.size (st : SinkState) : Nat :=
  (st.active.map fun l => l.length + 1).sum

/-- The empty sink at startup. -/
def initialSink : SinkState := ⟨[], []⟩

/-- Modelled from the spec: the size-rotation mechanism of the file
sink lives in `logging.handlers.RotatingFileHandler`, outside this
repository; per the spec it rolls over when the active log file
reaches 10 MiB and retains at most 5 rotated backups, discarding the
oldest beyond that.  Records below the logger's minimum severity
(`logging.INFO` here) are not recorded.  Emitting one record: if it is
below the minimum severity the state is unchanged; if appending it
would make the active file reach `maxBytes` the active file is rotated
into the backups (truncated to `backupCount`, oldest dropped) and a
fresh active file receives the line; otherwise the line is appended. -/
def fileEmit (st : SinkState) (r : LogRecord) : SinkState :=
  if r.level.num < cryptixMinLevel.num then st
  else if st.size + lineSize r ≥ cryptixMaxBytes then
    ⟨[lineOf r], (st.active :: st.backups).take cryptixBackupCount⟩
  else
    ⟨st.active ++ [lineOf r], st.backups⟩

/-- Reads a top-level field of a JSON response body. -/
def respField (r : HttpResponse) (key : String) : Option Json :=
  match r.body with
  | .json j => j.lookup key
  | .html _ => none

/-- Reads a field nested one level down in a JSON response body. -/
def respField2 (r : HttpResponse) (k1 k2 : String) : Option Json :=
  (respField r k1).bind fun j => j.lookup k2

theorem readDigit_digitChar : ∀ d : Nat, d < 10 → readDigit (Nat.digitChar d) = some d := by
  decide

theorem read2_digits2 (n : Nat) (h : n < 100) (rest : List Char) :
    read2 (digits2 n ++ rest) = some (n, rest) := by
  have h1 : n / 10 < 10 := by omega
  have h2 : n % 10 < 10 := Nat.mod_lt _ (by norm_num)
  have hn : 10 * (n / 10) + n % 10 = n := by omega
  simp only [digits2, List.cons_append, List.nil_append, read2,
    readDigit_digitChar _ h1, readDigit_digitChar _ h2, hn]

theorem read4_digits4 (n : Nat) (h : n < 10000) (rest : List Char) :
    read4 (digits4 n ++ rest) = some (n, rest) := by
  have h1 : n / 100 < 100 := by omega
  have h2 : n % 100 < 100 := Nat.mod_lt _ (by norm_num)
  have hn : 100 * (n / 100) + n % 100 = n := by omega
  simp only [digits4, List.append_assoc, read4, read2_digits2 _ h1,
    read2_digits2 _ h2, hn]

theorem read6_digits6 (n : Nat) (h : n < 1000000) (rest : List Char) :
    read6 (digits6 n ++ rest) = some (n, rest) := by
  have h1 : n / 10000 < 100 := by omega
  have h2 : n % 10000 < 10000 := Nat.mod_lt _ (by norm_num)
  have hn : 10000 * (n / 10000) + n % 10000 = n := by omega
  simp only [digits6, List.append_assoc, read6, read2_digits2 _ h1,
    read4_digits4 _ h2, hn]

theorem expectChar_cons (c : Char) (rest : List Char) :
    expectChar c (c :: rest) = some rest := by
  simp [expectChar]

set_option maxHeartbeats 1000000 in
/-- `isoformat` output parses back to the same broken-down time. -/
theorem isoParse_isoformat (t : DateTime) (h : t.Valid) :
    isoParse (isoformat t) = some t := by
  obtain ⟨hy1, hy2, hm1, hm2, hd1, hd2, hh, hmi, hs, hus⟩ := h
  have hy : t.year < 10000 := by omega
  have hmo : t.month < 100 := by omega
  have hd : t.day < 100 := by omega
  have hh2 : t.hour < 100 := by omega
  have hmi2 : t.minute < 100 := by omega
  have hs2 : t.second < 100 := by omega
  have hus2 : t.microsecond < 1000000 := by omega
  have hsec : read2 (digits2 t.second) = some (t.second, []) := by
    have h0 := read2_digits2 t.second hs2 []
    rwa [List.append_nil] at h0
  have husp : read6 (digits6 t.microsecond) = some (t.microsecond, []) := by
    have h0 := read6_digits6 t.microsecond hus2 []
    rwa [List.append_nil] at h0
  show isoParseChars (isoChars t) = some t
  by_cases hz : t.microsecond = 0
  · rw [isoChars, hz]
    simp only [if_pos rfl, List.append_nil, isoParseChars,
      read4_digits4 _ hy, Option.some_bind', expectChar_cons,
      read2_digits2 _ hmo, read2_digits2 _ hd, read2_digits2 _ hh2,
      read2_digits2 _ hmi2, hsec, if_true]
    rw [← hz]
  · rw [isoChars, if_neg hz]
    simp only [isoParseChars,
      read4_digits4 _ hy, Option.some_bind', expectChar_cons,
      read2_digits2 _ hmo, read2_digits2 _ hd, read2_digits2 _ hh2,
      read2_digits2 _ hmi2, read2_digits2 _ hs2, husp]

/-- After any single emission the number of retained backups is at most
`backupCount`, provided it was before. -/
theorem fileEmit_backups_le (st : SinkState) (r : LogRecord)
    (h : st.backups.length ≤ cryptixBackupCount) :
    (fileEmit st r).backups.length ≤ cryptixBackupCount := by
  unfold fileEmit
  split
  · exact h
  · split
    · exact le_trans (List.length_take_le cryptixBackupCount _) le_rfl
    · exact h

/-- Over any record stream from any state within the bound, the number
of retained backups stays within `backupCount`. -/
theorem foldl_fileEmit_backups_le (rs : List LogRecord) (st : SinkState)
    (h : st.backups.length ≤ cryptixBackupCount) :
    (rs.foldl fileEmit st).backups.length ≤ cryptixBackupCount := by
  induction rs generalizing st with
  | nil => exact h
  | cons r rest ih =>
    exact ih _ (fileEmit_backups_le st r h)

/-- C1: a POST to /log whose body is not valid JSON is answered without
any fault escaping the handler; the response has status 200 and
`request_details.body` is the literal placeholder string. -/
theorem log_post_invalid_json (debug : Bool) (now : DateTime) (req : HttpRequest)
    (hp : req.path = "/log") (hm : req.method = .POST) (hb : req.rawBody = none) :
    (∃ result, runHandler now req = .ok result) ∧
    (dispatch debug now req).1.status = 200 ∧
    respField2 (dispatch debug now req).1 "request_details" "body" =
      some (.str "Could not parse JSON body") := by
  refine ⟨⟨log_request now req, ?_⟩, ?_, ?_⟩ <;>
    simp [runHandler, dispatch, findRoute, hp, hm, hb, log_request, requestDetails,
      respField2, respField, Json.lookup, lookupField]

/-- C1 witness: a concrete POST to /log with an unparseable body. -/
theorem log_post_invalid_json_witness :
    (∃ result,
      runHandler ⟨2024, 5, 17, 12, 0, 0, 0⟩
        ⟨.POST, "/log", "http://localhost:5000/log", [("Host", "localhost:5000")],
          [], "127.0.0.1", none⟩ = .ok result) ∧
    (dispatch true ⟨2024, 5, 17, 12, 0, 0, 0⟩
        ⟨.POST, "/log", "http://localhost:5000/log", [("Host", "localhost:5000")],
          [], "127.0.0.1", none⟩).1.status = 200 ∧
    respField2 (dispatch true ⟨2024, 5, 17, 12, 0, 0, 0⟩
        ⟨.POST, "/log", "http://localhost:5000/log", [("Host", "localhost:5000")],
          [], "127.0.0.1", none⟩).1 "request_details" "body" =
      some (.str "Could not parse JSON body") :=
  log_post_invalid_json true ⟨2024, 5, 17, 12, 0, 0, 0⟩
    ⟨.POST, "/log", "http://localhost:5000/log", [("Host", "localhost:5000")],
      [], "127.0.0.1", none⟩ rfl rfl rfl

/-- C2: a POST to /fraud whose JSON body is an object lacking a
`transaction` key or binding it to a Python-falsy value is answered
with status 400 and exactly the required-transaction error body. -/
theorem fraud_missing_transaction (debug : Bool) (now : DateTime) (req : HttpRequest)
    (fields : List (String × Json))
    (hp : req.path = "/fraud") (hm : req.method = .POST)
    (hb : req.rawBody = some (.obj fields))
    (ht : pyNot (lookupField fields "transaction") = true) :
    (dispatch debug now req).1.status = 400 ∧
    (dispatch debug now req).1.body =
      .json (.obj [("error", .str "Transaction data is required")]) := by
  refine ⟨?_, ?_⟩ <;>
    simp [dispatch, findRoute, runHandler, analyze_fraud, hp, hm, hb, ht]

/-- C2 witness: a concrete POST to /fraud with body `{}`. -/
theorem fraud_missing_transaction_witness :
    (dispatch true ⟨2024, 5, 17, 12, 0, 0, 0⟩
        ⟨.POST, "/fraud", "http://localhost:5000/fraud", [], [], "127.0.0.1",
          some (.obj [])⟩).1.status = 400 ∧
    (dispatch true ⟨2024, 5, 17, 12, 0, 0, 0⟩
        ⟨.POST, "/fraud", "http://localhost:5000/fraud", [], [], "127.0.0.1",
          some (.obj [])⟩).1.body =
      .json (.obj [("error", .str "Transaction data is required")]) :=
  fraud_missing_transaction true ⟨2024, 5, 17, 12, 0, 0, 0⟩
    ⟨.POST, "/fraud", "http://localhost:5000/fraud", [], [], "127.0.0.1",
      some (.obj [])⟩ [] rfl rfl rfl rfl

/-- C3: a GET to /recommendations without a `userId` query parameter is
answered with status 400 and exactly the required-user-id error body. -/
theorem recommendations_missing_userId (debug : Bool) (now : DateTime)
    (req : HttpRequest)
    (hp : req.path = "/recommendations") (hm : req.method = .GET)
    (hu : argsGet req "userId" = none) :
    (dispatch debug now req).1.status = 400 ∧
    (dispatch debug now req).1.body =
      .json (.obj [("error", .str "User ID is required")]) := by
  refine ⟨?_, ?_⟩ <;>
    simp [dispatch, findRoute, runHandler, get_recommendations, pyNotStr, hp, hm, hu]

/-- C3 witness: a concrete GET to /recommendations with no query
parameters. -/
theorem recommendations_missing_userId_witness :
    (dispatch true ⟨2024, 5, 17, 12, 0, 0, 0⟩
        ⟨.GET, "/recommendations", "http://localhost:5000/recommendations", [],
          [], "127.0.0.1", none⟩).1.status = 400 ∧
    (dispatch true ⟨2024, 5, 17, 12, 0, 0, 0⟩
        ⟨.GET, "/recommendations", "http://localhost:5000/recommendations", [],
          [], "127.0.0.1", none⟩).1.body =
      .json (.obj [("error", .str "User ID is required")]) :=
  recommendations_missing_userId true ⟨2024, 5, 17, 12, 0, 0, 0⟩
    ⟨.GET, "/recommendations", "http://localhost:5000/recommendations", [],
      [], "127.0.0.1", none⟩ rfl rfl rfl

/-- C10: a GET to /recommendations whose `userId` query parameter is
present but empty is rejected exactly like a missing one: status 400
with the required-user-id error body. -/
theorem recommendations_empty_userId (debug : Bool) (now : DateTime)
    (req : HttpRequest)
    (hp : req.path = "/recommendations") (hm : req.method = .GET)
    (hu : argsGet req "userId" = some "") :
    (dispatch debug now req).1.status = 400 ∧
    (dispatch debug now req).1.body =
      .json (.obj [("error", .str "User ID is required")]) := by
  refine ⟨?_, ?_⟩ <;>
    simp [dispatch, findRoute, runHandler, get_recommendations, pyNotStr, hp, hm, hu]

/-- C10 witness: a concrete GET to /recommendations with
`userId=` (empty value). -/
theorem recommendations_empty_userId_witness :
    (dispatch true ⟨2024, 5, 17, 12, 0, 0, 0⟩
        ⟨.GET, "/recommendations", "http://localhost:5000/recommendations?userId=",
          [], [("userId", "")], "127.0.0.1", none⟩).1.status = 400 ∧
    (dispatch true ⟨2024, 5, 17, 12, 0, 0, 0⟩
        ⟨.GET, "/recommendations", "http://localhost:5000/recommendations?userId=",
          [], [("userId", "")], "127.0.0.1", none⟩).1.body =
      .json (.obj [("error", .str "User ID is required")]) :=
  recommendations_empty_userId true ⟨2024, 5, 17, 12, 0, 0, 0⟩
    ⟨.GET, "/recommendations", "http://localhost:5000/recommendations?userId=",
      [], [("userId", "")], "127.0.0.1", none⟩ rfl rfl rfl

/-- C5: a POST to /log with a well-formed JSON body echoes exactly that
parsed body under `request_details.body`; on a GET to /log the
`request_details` object carries no `body` key at all. -/
theorem log_echo_and_get_no_body (debug : Bool) (now now2 : DateTime)
    (req req2 : HttpRequest) (j : Json)
    (hp : req.path = "/log") (hm : req.method = .POST) (hb : req.rawBody = some j)
    (hp2 : req2.path = "/log") (hm2 : req2.method = .GET) :
    (dispatch debug now req).1.status = 200 ∧
    respField2 (dispatch debug now req).1 "request_details" "body" = some j ∧
    respField (dispatch debug now2 req2).1 "request_details" =
      some (requestDetails now2 req2) ∧
    (requestDetails now2 req2).lookup "body" = none := by
  refine ⟨?_, ?_, ?_, ?_⟩ <;>
    simp [dispatch, findRoute, runHandler, log_request, requestDetails,
      respField2, respField, Json.lookup, lookupField, hp, hm, hb, hp2, hm2]

/-- C5 witness: a concrete POST to /log carrying the JSON body
`{"event": "test_event"}`, and a concrete GET to /log. -/
theorem log_echo_and_get_no_body_witness :
    (dispatch true ⟨2024, 5, 17, 12, 0, 0, 0⟩
        ⟨.POST, "/log", "http://localhost:5000/log", [], [], "127.0.0.1",
          some (.obj [("event", .str "test_event")])⟩).1.status = 200 ∧
    respField2 (dispatch true ⟨2024, 5, 17, 12, 0, 0, 0⟩
        ⟨.POST, "/log", "http://localhost:5000/log", [], [], "127.0.0.1",
          some (.obj [("event", .str "test_event")])⟩).1
        "request_details" "body" = some (.obj [("event", .str "test_event")]) ∧
    respField (dispatch true ⟨2024, 5, 17, 12, 0, 1, 0⟩
        ⟨.GET, "/log", "http://localhost:5000/log", [], [], "127.0.0.1",
          none⟩).1 "request_details" =
      some (requestDetails ⟨2024, 5, 17, 12, 0, 1, 0⟩
        ⟨.GET, "/log", "http://localhost:5000/log", [], [], "127.0.0.1", none⟩) ∧
    (requestDetails ⟨2024, 5, 17, 12, 0, 1, 0⟩
        ⟨.GET, "/log", "http://localhost:5000/log", [], [], "127.0.0.1",
          none⟩).lookup "body" = none :=
  log_echo_and_get_no_body true ⟨2024, 5, 17, 12, 0, 0, 0⟩ ⟨2024, 5, 17, 12, 0, 1, 0⟩
    ⟨.POST, "/log", "http://localhost:5000/log", [], [], "127.0.0.1",
      some (.obj [("event", .str "test_event")])⟩
    ⟨.GET, "/log", "http://localhost:5000/log", [], [], "127.0.0.1", none⟩
    (.obj [("event", .str "test_event")]) rfl rfl rfl rfl rfl

/-- C7: every GET to /health answers with status field `"healthy"` and a
timestamp that parses under the ISO-8601 profile of
`datetime.isoformat()`; for two calls at non-decreasing clock readings
the parsed timestamps are non-decreasing. -/
theorem health_status_and_monotone_timestamps (debug : Bool)
    (now1 now2 : DateTime) (req1 req2 : HttpRequest)
    (h1 : now1.Valid) (h2 : now2.Valid) (hk : now1.key ≤ now2.key)
    (hp1 : req1.path = "/health") (hm1 : req1.method = .GET)
    (hp2 : req2.path = "/health") (hm2 : req2.method = .GET) :
    respField (dispatch debug now1 req1).1 "status" = some (.str "healthy") ∧
    ∃ s1 s2 t1 t2,
      respField (dispatch debug now1 req1).1 "timestamp" = some (.str s1) ∧
      respField (dispatch debug now2 req2).1 "timestamp" = some (.str s2) ∧
      isoParse s1 = some t1 ∧ isoParse s2 = some t2 ∧ t1.key ≤ t2.key := by
  refine ⟨?_, isoformat now1, isoformat now2, now1, now2, ?_, ?_,
    isoParse_isoformat now1 h1, isoParse_isoformat now2 h2, hk⟩ <;>
    simp [dispatch, findRoute, runHandler, health_check, respField,
      Json.lookup, lookupField, hp1, hm1, hp2, hm2]

/-- C7 witness: two concrete /health calls one second apart. -/
theorem health_status_and_monotone_timestamps_witness :
    respField (dispatch true ⟨2024, 5, 17, 12, 0, 0, 0⟩
        ⟨.GET, "/health", "http://localhost:5000/health", [], [], "127.0.0.1",
          none⟩).1 "status" = some (.str "healthy") ∧
    ∃ s1 s2 t1 t2,
      respField (dispatch true ⟨2024, 5, 17, 12, 0, 0, 0⟩
          ⟨.GET, "/health", "http://localhost:5000/health", [], [], "127.0.0.1",
            none⟩).1 "timestamp" = some (.str s1) ∧
      respField (dispatch true ⟨2024, 5, 17, 12, 0, 1, 500000⟩
          ⟨.GET, "/health", "http://localhost:5000/health", [], [], "127.0.0.1",
            none⟩).1 "timestamp" = some (.str s2) ∧
      isoParse s1 = some t1 ∧ isoParse s2 = some t2 ∧ t1.key ≤ t2.key :=
  health_status_and_monotone_timestamps true
    ⟨2024, 5, 17, 12, 0, 0, 0⟩ ⟨2024, 5, 17, 12, 0, 1, 500000⟩
    ⟨.GET, "/health", "http://localhost:5000/health", [], [], "127.0.0.1", none⟩
    ⟨.GET, "/health", "http://localhost:5000/health", [], [], "127.0.0.1", none⟩
    (by decide) (by decide) (by decide) rfl rfl rfl rfl

/-- C9: the /fraud success path is independent of the transaction
content — any two POSTs to /fraud whose object bodies bind
`transaction` to a non-falsy value receive identical responses, namely
status 200 with the fixed placeholder analysis. -/
theorem fraud_constant_response (debug : Bool) (now1 now2 : DateTime)
    (req1 req2 : HttpRequest) (f1 f2 : List (String × Json))
    (hp1 : req1.path = "/fraud") (hm1 : req1.method = .POST)
    (hb1 : req1.rawBody = some (.obj f1))
    (ht1 : pyNot (lookupField f1 "transaction") = false)
    (hp2 : req2.path = "/fraud") (hm2 : req2.method = .POST)
    (hb2 : req2.rawBody = some (.obj f2))
    (ht2 : pyNot (lookupField f2 "transaction") = false) :
    (dispatch debug now1 req1).1 = (dispatch debug now2 req2).1 ∧
    (dispatch debug now1 req1).1.status = 200 ∧
    (dispatch debug now1 req1).1.body =
      .json (.obj [("analysis", .obj [
        ("riskScore", .num (85 / 100)),
        ("isFraudulent", .bool true)])]) := by
  refine ⟨?_, ?_, ?_⟩ <;>
    simp [dispatch, findRoute, runHandler, analyze_fraud,
      hp1, hm1, hb1, ht1, hp2, hm2, hb2, ht2]

/-- C9 witness: two concrete /fraud POSTs with different non-falsy
transactions. -/
theorem fraud_constant_response_witness :
    (dispatch true ⟨2024, 5, 17, 12, 0, 0, 0⟩
        ⟨.POST, "/fraud", "http://localhost:5000/fraud", [], [], "127.0.0.1",
          some (.obj [("transaction", .obj [("value", .num 100)])])⟩).1 =
      (dispatch true ⟨2024, 5, 17, 12, 0, 1, 0⟩
        ⟨.POST, "/fraud", "http://localhost:5000/fraud", [], [], "10.0.0.9",
          some (.obj [("transaction", .str "t2")])⟩).1 ∧
    (dispatch true ⟨2024, 5, 17, 12, 0, 0, 0⟩
        ⟨.POST, "/fraud", "http://localhost:5000/fraud", [], [], "127.0.0.1",
          some (.obj [("transaction", .obj [("value", .num 100)])])⟩).1.status = 200 ∧
    (dispatch true ⟨2024, 5, 17, 12, 0, 0, 0⟩
        ⟨.POST, "/fraud", "http://localhost:5000/fraud", [], [], "127.0.0.1",
          some (.obj [("transaction", .obj [("value", .num 100)])])⟩).1.body =
      .json (.obj [("analysis", .obj [
        ("riskScore", .num (85 / 100)),
        ("isFraudulent", .bool true)])]) :=
  fraud_constant_response true ⟨2024, 5, 17, 12, 0, 0, 0⟩ ⟨2024, 5, 17, 12, 0, 1, 0⟩
    ⟨.POST, "/fraud", "http://localhost:5000/fraud", [], [], "127.0.0.1",
      some (.obj [("transaction", .obj [("value", .num 100)])])⟩
    ⟨.POST, "/fraud", "http://localhost:5000/fraud", [], [], "10.0.0.9",
      some (.obj [("transaction", .str "t2")])⟩
    [("transaction", .obj [("value", .num 100)])]
    [("transaction", .str "t2")]
    rfl rfl rfl rfl rfl rfl rfl rfl

/-- C6 counterexample: POST to /health — a (path, method) pair matching
no registered route, since /health only allows GET — is answered with
status 405 (Method Not Allowed), not 404 as the claim states. -/
theorem method_mismatch_is_405_not_404 :
    (dispatch flaskDebug ⟨2024, 5, 17, 12, 0, 0, 0⟩
        ⟨.POST, "/health", "http://localhost:5000/health", [], [], "127.0.0.1",
          none⟩).1.status = 405 ∧
    (dispatch flaskDebug ⟨2024, 5, 17, 12, 0, 0, 0⟩
        ⟨.POST, "/health", "http://localhost:5000/health", [], [], "127.0.0.1",
          none⟩).1.status ≠ 404 := by
  constructor
  · rfl
  · intro h
    simp [dispatch, findRoute, flaskDebug] at h

/-- C6 amended: a request whose PATH matches no registered route gets a
warning log containing the requested URL and status 404 with exactly
the resource-not-found body; a request whose path is registered but
whose method is not among the route's methods gets status 405 instead. -/
theorem unmatched_route_behavior (debug debug2 : Bool) (now now2 : DateTime)
    (req req2 : HttpRequest) (ms : List Method)
    (h : findRoute req.path = none)
    (h2 : findRoute req2.path = some ms) (hm2 : req2.method ∉ ms) :
    (dispatch debug now req).1.status = 404 ∧
    (dispatch debug now req).1.body = .json (.obj [
      ("error", .str "Resource not found"),
      ("status_code", .num 404)]) ∧
    (∃ pre post, (dispatch debug now req).2 =
      [⟨.warning, pre ++ req.url ++ post⟩]) ∧
    (dispatch debug2 now2 req2).1.status = 405 := by
  refine ⟨?_, ?_, ⟨"404 Error: ", "", ?_⟩, ?_⟩ <;>
    simp [dispatch, not_found_error, h, h2, hm2]

/-- C6 amended witness: a concrete GET to an unregistered path and a
concrete POST to the GET-only /health route. -/
theorem unmatched_route_behavior_witness :
    (dispatch true ⟨2024, 5, 17, 12, 0, 0, 0⟩
        ⟨.GET, "/nonexistent-route", "http://localhost:5000/nonexistent-route",
          [], [], "127.0.0.1", none⟩).1.status = 404 ∧
    (dispatch true ⟨2024, 5, 17, 12, 0, 0, 0⟩
        ⟨.GET, "/nonexistent-route", "http://localhost:5000/nonexistent-route",
          [], [], "127.0.0.1", none⟩).1.body = .json (.obj [
      ("error", .str "Resource not found"),
      ("status_code", .num 404)]) ∧
    (∃ pre post, (dispatch true ⟨2024, 5, 17, 12, 0, 0, 0⟩
        ⟨.GET, "/nonexistent-route", "http://localhost:5000/nonexistent-route",
          [], [], "127.0.0.1", none⟩).2 =
      [⟨.warning, pre ++ "http://localhost:5000/nonexistent-route" ++ post⟩]) ∧
    (dispatch true ⟨2024, 5, 17, 12, 0, 0, 0⟩
        ⟨.POST, "/health", "http://localhost:5000/health", [], [], "127.0.0.1",
          none⟩).1.status = 405 :=
  unmatched_route_behavior true true ⟨2024, 5, 17, 12, 0, 0, 0⟩
    ⟨2024, 5, 17, 12, 0, 0, 0⟩
    ⟨.GET, "/nonexistent-route", "http://localhost:5000/nonexistent-route",
      [], [], "127.0.0.1", none⟩
    ⟨.POST, "/health", "http://localhost:5000/health", [], [], "127.0.0.1", none⟩
    [.GET] rfl rfl (by decide)

/-- C4: with the source's `debug=True` (app.py line 180), an uncaught
`AttributeError` in `analyze_fraud` — e.g. a POST to /fraud whose valid
JSON body is an array, so `data.get` does not exist — is answered with
the Werkzeug debugger's HTML traceback page carrying the fault
description, NOT the registered 500 handler's JSON body: the fault
detail reaches the caller and the response is an HTML error page,
contradicting the claim. -/
theorem debug_mode_leaks_traceback :
    (dispatch flaskDebug ⟨2024, 5, 17, 12, 0, 0, 0⟩
        ⟨.POST, "/fraud", "http://localhost:5000/fraud", [], [], "127.0.0.1",
          some (.arr [.num 1, .num 2])⟩).1.status = 500 ∧
    (dispatch flaskDebug ⟨2024, 5, 17, 12, 0, 0, 0⟩
        ⟨.POST, "/fraud", "http://localhost:5000/fraud", [], [], "127.0.0.1",
          some (.arr [.num 1, .num 2])⟩).1.body =
      .html (debuggerPage "AttributeError: object has no attribute get") ∧
    (dispatch flaskDebug ⟨2024, 5, 17, 12, 0, 0, 0⟩
        ⟨.POST, "/fraud", "http://localhost:5000/fraud", [], [], "127.0.0.1",
          some (.arr [.num 1, .num 2])⟩).1.body ≠
      .json (.obj [
        ("error", .str "Internal server error"),
        ("status_code", .num 500)]) := by
  refine ⟨rfl, rfl, ?_⟩
  intro h
  simp [dispatch, findRoute, runHandler, analyze_fraud, flaskDebug] at h

/-- C8: the logger's file sink is configured with `maxBytes` 10485760,
`backupCount` 5 and minimum severity INFO; along any record stream the
number of retained backups never exceeds 5; a recorded line rolls the
file over exactly when the active file would reach 10485760 bytes; and
records below INFO leave the sink untouched. -/
theorem logger_rotation_policy :
    (cryptixMaxBytes = 10485760 ∧ cryptixBackupCount = 5 ∧
      cryptixMinLevel = LogLevel.info) ∧
    (∀ rs : List LogRecord, (rs.foldl fileEmit initialSink).backups.length ≤ 5) ∧
    (∀ (st : SinkState) (r : LogRecord), LogLevel.num .info ≤ r.level.num →
      (st.size + lineSize r ≥ 10485760 →
        fileEmit st r = ⟨[lineOf r], (st.active :: st.backups).take 5⟩) ∧
      (st.size + lineSize r < 10485760 →
        fileEmit st r = ⟨st.active ++ [lineOf r], st.backups⟩)) ∧
    (∀ (st : SinkState) (r : LogRecord), r.level.num < LogLevel.num .info →
      fileEmit st r = st) := by
  refine ⟨⟨rfl, rfl, rfl⟩, ?_, ?_, ?_⟩
  · intro rs
    exact foldl_fileEmit_backups_le rs initialSink (by decide)
  · intro st r hlev
    have hnot : ¬ r.level.num < LogLevel.num .info := by omega
    constructor
    · intro hge
      simp only [fileEmit, cryptixMinLevel, cryptixMaxBytes, cryptixBackupCount]
      rw [if_neg hnot, if_pos hge]
    · intro hlt
      simp only [fileEmit, cryptixMinLevel, cryptixMaxBytes, cryptixBackupCount]
      rw [if_neg hnot, if_neg (by omega)]
  · intro st r hlev
    simp only [fileEmit, cryptixMinLevel]
    rw [if_pos hlev]

/-- C8 witness: one INFO record appended below the threshold keeps the
backups empty; a DEBUG record is not recorded at all. -/
theorem logger_rotation_policy_witness :
    (([(⟨"2024-05-17 12:00:00", .info, "Health check endpoint accessed"⟩ :
        LogRecord)].foldl fileEmit initialSink).backups.length ≤ 5) ∧
    fileEmit initialSink ⟨"2024-05-17 12:00:00", .info, "Health check endpoint accessed"⟩ =
      ⟨initialSink.active ++
        [lineOf ⟨"2024-05-17 12:00:00", .info, "Health check endpoint accessed"⟩],
        initialSink.backups⟩ ∧
    fileEmit initialSink ⟨"2024-05-17 12:00:00", .debug, "noise"⟩ = initialSink :=
  ⟨logger_rotation_policy.2.1
      [⟨"2024-05-17 12:00:00", .info, "Health check endpoint accessed"⟩],
    (logger_rotation_policy.2.2.1 initialSink
      ⟨"2024-05-17 12:00:00", .info, "Health check endpoint accessed"⟩
      (by decide)).2 (by decide),
    logger_rotation_policy.2.2.2 initialSink
      ⟨"2024-05-17 12:00:00", .debug, "noise"⟩ (by decide)⟩
